import Mathlib

/-!
Verification of the synthetic incident generation and aggregation engine of the
Chennai Traffic Analyzer (src/app.py) against its natural-language specification.

The Python module is embedded shallowly:
the ambient numpy random source is modelled as an explicit stream of draws
(a function from draw index to a natural number, respectively to a rational for
normal-distribution draws); pandas DataFrames of incident records become lists
of an Incident structure; dates become integer day numbers; the fallible
f-string prompt construction returns an Except value.
-/

namespace TrafficApp

/-- Fixed location registry (app.py lines 29 to 34). -/
def chennai_locations : List String :=
  ["T Nagar", "Adyar", "Anna Nagar", "Velachery", "Mylapore", "Porur",
   "Tambaram", "Chromepet", "Guindy", "Egmore", "Nungambakkam", "Vadapalani",
   "Sholinganallur", "Pallavaram", "Perungudi", "Royapettah", "Kilpauk",
   "Besant Nagar", "Ambattur", "Kodambakkam", "Ramapuram"]

/-- An incident record as built by generate_traffic_incidents (app.py lines 40 to 46). -/
structure Incident where
  type : String
  «from» : String
  «to» : String
  delay : Nat
  length : Nat
  deriving DecidableEq

/-- Model of numpy random.randint(lo, hi): a single draw r from the ambient
random source, mapped into the half-open interval from lo (inclusive) to hi
(exclusive), exactly the interval randint guarantees. -/
def np_randint (lo hi r : Nat) : Nat := lo + r % (hi - lo)

/-- Model of numpy random.choice(xs): a single draw r selects an element of xs. -/
def np_choice (xs : List String) (r : Nat) : String := xs.getD (r % xs.length) ""

/-- The fixed enumeration of incident types (app.py line 41). -/
def incident_types : List String := ["Congestion", "Accident", "Construction", "Event"]

/-- One iteration of the generation loop (app.py lines 40 to 47); iteration i
consumes five consecutive draws from the random stream r. -/
def mk_incident (r : Nat → Nat) (i : Nat) : Incident :=
  { type := np_choice incident_types (r (5 * i)),
    «from» := np_choice chennai_locations (r (5 * i + 1)),
    «to» := np_choice chennai_locations (r (5 * i + 2)),
    delay := np_randint 60 1800 (r (5 * i + 3)),
    length := np_randint 100 5000 (r (5 * i + 4)) }

/-- generate_traffic_incidents (app.py lines 37 to 48), with the ambient random
source made explicit as the stream r. -/
def generate_traffic_incidents (r : Nat → Nat) (num_incidents : Nat) : List Incident :=
  (List.range num_incidents).map (mk_incident r)

/-- The call with the default argument num_incidents = 50 (app.py lines 37 and 87). -/
def generate_traffic_incidents_default (r : Nat → Nat) : List Incident :=
  generate_traffic_incidents r 50

/-- Model of Python str.lower() on an ASCII string, as a character list. -/
def py_lower (s : String) : List Char := s.data.map Char.toLower

/-- Whether the pattern (second argument) is a prefix of the first argument. -/
def starts_with : List Char → List Char → Bool
  | _, [] => true
  | [], _ :: _ => false
  | c :: s, p :: ps => c == p && starts_with s ps

/-- Whether the pattern (second argument) occurs as a contiguous substring of
the first argument. -/
def contains_sub : List Char → List Char → Bool
  | [], pat => pat.isEmpty
  | c :: rest, pat => starts_with (c :: rest) pat || contains_sub rest pat

/-- Model of the pandas test Series.str.contains(loc, case=False, na=False)
(app.py lines 97 to 98): case-insensitive substring containment. The location
names the app passes contain no regular-expression metacharacters, for which
the pandas regex containment coincides with literal substring containment. -/
def str_contains_ci (s pat : String) : Bool := contains_sub (py_lower s) (py_lower pat)

/-- The row predicate of the location filter (app.py lines 97 to 98). -/
def matches_location (loc : String) (i : Incident) : Bool :=
  str_contains_ci i.«from» loc || str_contains_ci i.«to» loc

/-- The module-level location filter (app.py lines 96 to 98): when the selected
location is not the sentinel "All", keep the rows whose from or to field
matches; otherwise the frame is left unchanged. -/
def filter_by_location (batch : List Incident) (loc : String) : List Incident :=
  if loc ≠ "All" then batch.filter (matches_location loc) else batch

/-- Summary statistics of the overview block (app.py lines 103 to 105). -/
structure SummaryStats where
  count : Nat
  averageDelaySeconds : Rat
  totalLengthMeters : Nat
  deriving DecidableEq

/-- len(df_traffic) (app.py line 103). -/
def total_incidents (batch : List Incident) : Nat := batch.length

/-- The pandas mean of the delay column (app.py line 104), as an exact rational. -/
def avg_delay (batch : List Incident) : Rat :=
  (((batch.map Incident.delay).sum : Nat) : Rat) / ((batch.length : Nat) : Rat)

/-- The pandas sum of the length column (app.py line 105). -/
def total_affected_length (batch : List Incident) : Nat :=
  (batch.map Incident.length).sum

/-- The three summary statistics computed inside the nonempty branch. -/
def summarize (batch : List Incident) : SummaryStats :=
  { count := total_incidents batch,
    averageDelaySeconds := avg_delay batch,
    totalLengthMeters := total_affected_length batch }

/-- The overview block (app.py lines 102 to 129): the statistics are computed
only under the guard that the filtered frame is nonempty; on an empty frame the
block emits a warning and no statistics at all. -/
def traffic_overview (batch : List Incident) : Option SummaryStats :=
  if batch.isEmpty then none else some (summarize batch)

/-- The comparison underlying nlargest on the delay column: a row sorts before
another when its delay is at least as large. -/
def le_delay (a b : Incident) : Bool := decide (b.delay ≤ a.delay)

/-- Model of DataFrame.nlargest(n, column) with the default keep equal to
first (app.py line 124): pandas performs a stable (mergesort-based) descending
arrangement by the column and keeps the first n rows, so ties retain their
original row order. -/
def nlargest (n : Nat) (batch : List Incident) : List Incident :=
  (batch.mergeSort le_delay).take n

/-- The top-affected ranking (app.py line 124): the ten rows of greatest delay. -/
def top_affected (batch : List Incident) : List Incident := nlargest 10 batch

/-- A daily entry of the synthetic historical series (app.py lines 162 to 166). -/
structure HistoryPoint where
  date : Int
  incidents : Nat
  avg_delay : Rat
  deriving DecidableEq

/-- Model of pandas date_range(start, end) at daily frequency (app.py line 158),
with dates as integer day numbers: the days from start to end inclusive when
start is at most end, and the empty index otherwise (pandas raises no error on a
reversed range; it returns an empty DatetimeIndex). -/
def date_range (s e : Int) : List Int :=
  if s ≤ e then (List.range (e - s + 1).toNat).map (fun i : Nat => s + (i : Int)) else []

/-- The historical-data block (app.py lines 158 to 166): one row per day of the
range, the incident count drawn by randint(10, 100) from the stream r and the
average delay drawn from a normal distribution modelled by the stream g. -/
def hist_generate (r : Nat → Nat) (g : Nat → Rat) (s e : Int) : List HistoryPoint :=
  (date_range s e).enum.map
    (fun p => { date := p.2, incidents := np_randint 10 100 (r p.1), avg_delay := g p.1 })

/-- Model of Python str.strip(): leading and trailing whitespace removed. -/
def py_strip (s : String) : String :=
  String.mk (((s.data.dropWhile Char.isWhitespace).reverse.dropWhile Char.isWhitespace).reverse)

/-- Key lookup in a decoded JSON object, modelling the containment test and
indexing on response_body (app.py lines 64 to 65); values are kept as their
rendered text. -/
def lookup_key (k : String) : List (String × String) → Option String
  | [] => none
  | p :: rest => if p.1 = k then some p.2 else lookup_key k rest

/-- Model of json.dumps on the decoded response object (app.py line 68). -/
def json_dumps (body : List (String × String)) : String :=
  "\x7b" ++ String.intercalate ", "
    (body.map (fun p => "\x22" ++ p.1 ++ "\x22: \x22" ++ p.2 ++ "\x22")) ++ "\x7d"

/-- Outcome of the external model invocation (app.py lines 60 to 61), as seen
by the surrounding try block: either a decoded response body, or a raised
exception carrying its str and repr renderings. -/
inductive InvokeResult where
  | ok (body : List (String × String))
  | err (estr erepr : String)
  deriving DecidableEq

/-- get_traffic_insights (app.py lines 51 to 70): returns the stripped
generation field when present, the dumped raw response when the field is
absent, and a descriptive message holding both str(e) and repr(e) when the
invocation raised. -/
def get_traffic_insights : InvokeResult → String
  | .ok body =>
    match lookup_key "generation" body with
    | some g => py_strip g
    | none => "Unexpected response structure. Full response: " ++ json_dumps body
  | .err estr erepr =>
    "Error getting traffic insights: " ++ estr ++ "\nFull error: " ++ erepr

/-- Rounding to the nearest integer with ties to even, the rounding Python
float formatting applies. -/
def round_half_even (q : Rat) : Int :=
  if q - q.floor < 1 / 2 then q.floor
  else if 1 / 2 < q - q.floor then q.floor + 1
  else if q.floor % 2 = 0 then q.floor else q.floor + 1

/-- Two-digit zero padding of the fractional part. -/
def pad2 (n : Nat) : String := if n < 10 then "0" ++ toString n else toString n

/-- Model of the Python format specifier .2f applied to an exact rational value:
fixed-point rendering with two digits after the point. -/
def fmt2 (q : Rat) : String :=
  (if round_half_even (q * 100) < 0 then "-" else "")
    ++ toString ((round_half_even (q * 100)).natAbs / 100) ++ "."
    ++ pad2 ((round_half_even (q * 100)).natAbs % 100)

/-- The top-affected-areas line of the prompt (app.py line 141): the comma-join
of the from column of the ranked rows when that frame exists and is nonempty,
and the fallback text otherwise. -/
def top_areas : Option (List Incident) → String
  | some l => if l.isEmpty then "No data available"
      else String.intercalate ", " (l.map Incident.«from»)
  | none => "No data available"

/-- The text of the f-string (app.py lines 136 to 143) up to and including the
marker before the user question. The conditionals that lines 139 and 140 meant
to guard the average-delay and total-length fields sit outside the braces in
the source, so in the branch where the statistics exist they are emitted as
literal text rather than evaluated. -/
def prompt_before_question (loc date : String) (s : SummaryStats)
    (top : Option (List Incident)) : String :=
  "Analyze the following traffic incident data for " ++ loc ++ " in Chennai on "
    ++ date ++ " and answer the user\x27s question:\n\n    Total traffic incidents: "
    ++ toString s.count
    ++ "\n    Average delay: " ++ fmt2 s.averageDelaySeconds ++ " seconds ("
    ++ fmt2 (s.averageDelaySeconds / 60)
    ++ " minutes) if \x27avg_delay\x27 in locals() else \x27N/A\x27"
    ++ "\n    Total affected road length: " ++ fmt2 ((s.totalLengthMeters : Rat))
    ++ " meters (" ++ fmt2 ((s.totalLengthMeters : Rat) / 1000)
    ++ " km) if \x27total_affected_length\x27 in locals() else \x27N/A\x27"
    ++ "\n    Top affected areas: " ++ top_areas top
    ++ "\n\n    User question: "

/-- The text of the f-string after the user question (app.py line 145). -/
def prompt_after_question (loc : String) : String :=
  "\n\n    Provide a detailed and informative answer based on the given data and"
    ++ " your knowledge about traffic patterns and Chennai\x27s geography, focusing on "
    ++ loc ++ " if specified."

/-- The prompt construction (app.py lines 136 to 145). The f-string fragments
evaluate in source order: the total-incidents brace of line 138 carries its
guard inside the brace and renders the N/A fallback, but line 139 then
evaluates the brace holding avg_delay, which raises NameError whenever the
overview block did not run (empty filtered batch), because its guard is
literal text outside the brace. -/
def build_prompt (loc date : String) (stats : Option SummaryStats)
    (top : Option (List Incident)) (q : String) : Except String String :=
  match stats with
  | none => Except.error "NameError: name \x27avg_delay\x27 is not defined"
  | some s =>
      Except.ok (prompt_before_question loc date s top ++ q ++ prompt_after_question loc)

/-- A concrete incident with delay 300, first in the example batch. -/
def inc0 : Incident :=
  { type := "Accident", «from» := "T Nagar", «to» := "Adyar", delay := 300, length := 1000 }

/-- A concrete incident with delay 100, second in the example batch. -/
def inc1 : Incident :=
  { type := "Congestion", «from» := "Velachery", «to» := "Porur", delay := 100, length := 500 }

/-- A concrete incident with delay 300, third in the example batch. -/
def inc2 : Incident :=
  { type := "Event", «from» := "Guindy", «to» := "Egmore", delay := 300, length := 800 }

/-- The incident of the filtering example: from T Nagar to Adyar. -/
def inc_nagar : Incident :=
  { type := "Construction", «from» := "T Nagar", «to» := "Adyar", delay := 240, length := 900 }

/-- Concrete incidents with delays 100, 200 and 300 for the summary example. -/
def sinc1 : Incident :=
  { type := "Accident", «from» := "Adyar", «to» := "Porur", delay := 100, length := 1000 }

/-- Second summary-example incident, delay 200. -/
def sinc2 : Incident :=
  { type := "Event", «from» := "Guindy", «to» := "Egmore", delay := 200, length := 2000 }

/-- Third summary-example incident, delay 300. -/
def sinc3 : Incident :=
  { type := "Congestion", «from» := "Porur", «to» := "Adyar", delay := 300, length := 1500 }

theorem np_randint_lb (lo hi r : Nat) : lo ≤ np_randint lo hi r := Nat.le_add_right _ _

theorem np_randint_ub (lo hi r : Nat) (h : lo < hi) : np_randint lo hi r < hi := by
  have hm := Nat.mod_lt r (show 0 < hi - lo by omega)
  simp only [np_randint]
  omega

theorem np_choice_mem (xs : List String) (r : Nat) (h : xs ≠ []) : np_choice xs r ∈ xs := by
  have hlen : 0 < xs.length := List.length_pos.mpr h
  have hlt : r % xs.length < xs.length := Nat.mod_lt _ hlen
  rw [np_choice, List.getD_eq_getElem xs "" hlt]
  exact List.getElem_mem hlt

theorem le_delay_trans :
    ∀ a b c : Incident, le_delay a b → le_delay b c → le_delay a c := by
  intro a b c
  simp only [le_delay, decide_eq_true_eq]
  omega

theorem le_delay_total : ∀ a b : Incident, le_delay a b || le_delay b a := by
  intro a b
  simp only [le_delay, Bool.or_eq_true, decide_eq_true_eq]
  omega

theorem avg_delay_mul_length (batch : List Incident) (h : batch ≠ []) :
    avg_delay batch * (batch.length : Rat) = ((batch.map Incident.delay).sum : Rat) := by
  have hl : (batch.length : Rat) ≠ 0 := by
    exact_mod_cast Nat.cast_ne_zero.mpr (fun hz => h (List.length_eq_zero.mp hz))
  rw [avg_delay, div_mul_cancel₀ _ hl]

/-- C10: filtering with the sentinel location All returns the batch unchanged,
with the same incidents in the same order and with the same multiplicities. -/
theorem filter_all_unchanged :
    ∀ batch : List Incident, filter_by_location batch "All" = batch := by
  intro batch
  simp [filter_by_location]

/-- C6: the overview path branches on emptiness before any division: the empty
batch yields the none sentinel and no average at all, statistics exist exactly
for nonempty batches, and any reported average satisfies the genuine division
equation over the batch size, so it is never a silent zero standing in for an
undefined mean. -/
theorem empty_batch_average_guarded :
    traffic_overview ([] : List Incident) = none
    ∧ (∀ batch : List Incident, (∃ s, traffic_overview batch = some s) ↔ batch ≠ [])
    ∧ (∀ (batch : List Incident) (s : SummaryStats), traffic_overview batch = some s →
        s.averageDelaySeconds * (batch.length : Rat) = ((batch.map Incident.delay).sum : Rat)) := by
  refine ⟨rfl, ?_, ?_⟩
  · intro batch
    constructor
    · rintro ⟨s, hs⟩ hnil
      subst hnil
      simp [traffic_overview] at hs
    · intro hne
      refine ⟨summarize batch, ?_⟩
      simp [traffic_overview, List.isEmpty_iff, hne]
  · intro batch s hs
    by_cases hne : batch = []
    · subst hne
      simp [traffic_overview] at hs
    · have hsum : s = summarize batch := by
        simpa [traffic_overview, List.isEmpty_iff, hne] using hs.symm
      subst hsum
      exact avg_delay_mul_length batch hne

/-- C5: for a nonempty batch, summarize returns the batch size as count, the
arithmetic mean of the delay column as average, and the sum of the length
column as total length; on the concrete batch with delays 100, 200 and 300 the
average is exactly 200 and the total length is the sum of the three lengths. -/
theorem summarize_spec (batch : List Incident) (h : batch ≠ []) :
    (summarize batch).count = batch.length
    ∧ (summarize batch).averageDelaySeconds
        = ((batch.map Incident.delay).sum : Rat) / ((batch.map Incident.delay).length : Rat)
    ∧ (summarize batch).averageDelaySeconds * (batch.length : Rat)
        = ((batch.map Incident.delay).sum : Rat)
    ∧ (summarize batch).totalLengthMeters = (batch.map Incident.length).sum
    ∧ (summarize [sinc1, sinc2, sinc3]).averageDelaySeconds = 200
    ∧ (summarize [sinc1, sinc2, sinc3]).totalLengthMeters = 1000 + 2000 + 1500 := by
  refine ⟨rfl, ?_, avg_delay_mul_length batch h, rfl, ?_, ?_⟩
  · simp [summarize, avg_delay, List.length_map]
  · show avg_delay [sinc1, sinc2, sinc3] = 200
    simp [avg_delay, sinc1, sinc2, sinc3]
    norm_num
  · show total_affected_length [sinc1, sinc2, sinc3] = 1000 + 2000 + 1500
    simp [total_affected_length, sinc1, sinc2, sinc3]

/-- Witness for C5: the hypothesis discharged at the concrete summary batch. -/
theorem summarize_spec_witness :
    ([sinc1, sinc2, sinc3] : List Incident) ≠ []
    ∧ (summarize [sinc1, sinc2, sinc3]).count = ([sinc1, sinc2, sinc3] : List Incident).length :=
  ⟨by decide, (summarize_spec [sinc1, sinc2, sinc3] (by decide)).1⟩

/-- C7: generate returns exactly the requested number of incidents, every field
of every generated incident lies in its documented enumeration or half-open
range, and the default count is 50. -/
theorem generate_spec (r : Nat → Nat) (n : Nat) :
    (generate_traffic_incidents r n).length = n
    ∧ (∀ inc ∈ generate_traffic_incidents r n,
        inc.type ∈ incident_types
        ∧ inc.«from» ∈ chennai_locations
        ∧ inc.«to» ∈ chennai_locations
        ∧ 60 ≤ inc.delay ∧ inc.delay < 1800
        ∧ 100 ≤ inc.length ∧ inc.length < 5000)
    ∧ generate_traffic_incidents_default r = generate_traffic_incidents r 50 := by
  refine ⟨?_, ?_, rfl⟩
  · simp [generate_traffic_incidents]
  · intro inc hmem
    simp only [generate_traffic_incidents, List.mem_map, List.mem_range] at hmem
    obtain ⟨i, -, rfl⟩ := hmem
    simp only [mk_incident]
    exact ⟨np_choice_mem _ _ (by decide), np_choice_mem _ _ (by decide),
    np_choice_mem _ _ (by decide), np_randint_lb 60 1800 _,
    np_randint_ub 60 1800 _ (by decide), np_randint_lb 100 5000 _,
    np_randint_ub 100 5000 _ (by decide)⟩

/-- Witness for C7: the length clause evaluated at a concrete stream and count. -/
theorem generate_spec_witness :
    (generate_traffic_incidents (fun k => k) 3).length = 3 :=
  (generate_spec (fun k => k) 3).1

/-- C1: the ranking is sorted by descending delay; the kept rows dominate the
dropped rows in delay, the two together being a permutation of the batch; when
the batch has at most k rows the result is a permutation of all of them; pairs
in delay order keep their relative position whenever everything is kept; and,
for every batch and every k including the truncating ones, the result is the
take of the position-indexed ranking of the batch, a ranking that is a
permutation of the indexed batch and is strictly ordered by greater delay
first and, on equal delays, smaller original batch position first - which is
exactly the stable tie-break with keep-first selection across the cut.
Concretely, delays 300, 100, 300 rank as first, third, second, and truncating
the same batch to two rows keeps the first and third, the earlier of the two
tied rows surviving the cut. -/
theorem top_affected_spec (batch : List Incident) (k : Nat) :
    (nlargest k batch).Pairwise (fun a b => b.delay ≤ a.delay)
    ∧ (∃ rest, ((nlargest k batch) ++ rest).Perm batch
        ∧ ∀ x ∈ nlargest k batch, ∀ y ∈ rest, y.delay ≤ x.delay)
    ∧ (batch.length ≤ k → (nlargest k batch).Perm batch)
    ∧ (∀ a b : Incident, batch.length ≤ k → List.Sublist [a, b] batch →
        b.delay ≤ a.delay → List.Sublist [a, b] (nlargest k batch))
    ∧ nlargest k batch
        = ((batch.enum.mergeSort (List.enumLE le_delay)).take k).map Prod.snd
    ∧ (batch.enum.mergeSort (List.enumLE le_delay)).Perm batch.enum
    ∧ (batch.enum.mergeSort (List.enumLE le_delay)).Pairwise
        (fun a b => b.2.delay < a.2.delay ∨ (a.2.delay = b.2.delay ∧ a.1 < b.1))
    ∧ top_affected [inc0, inc1, inc2] = [inc0, inc2, inc1]
    ∧ nlargest 2 [inc0, inc1, inc2] = [inc0, inc2] := by
  have hsorted : (batch.mergeSort le_delay).Pairwise (fun a b => b.delay ≤ a.delay) := by
    have hp := @List.sorted_mergeSort Incident le_delay le_delay_trans le_delay_total batch
    exact hp.imp (by intro a b hb; simpa [le_delay] using hb)
  have henum : (batch.enum.mergeSort (List.enumLE le_delay)).map Prod.snd
      = batch.mergeSort le_delay := List.mergeSort_enum
  have hperm_enum : (batch.enum.mergeSort (List.enumLE le_delay)).Perm batch.enum :=
    List.mergeSort_perm _ _
  refine ⟨?_, ?_, ?_, ?_, ?_, hperm_enum, ?_, ?_, ?_⟩
  · exact List.Pairwise.sublist (List.take_sublist k _) hsorted
  · refine ⟨(batch.mergeSort le_delay).drop k, ?_, ?_⟩
    · rw [nlargest, List.take_append_drop]
      exact List.mergeSort_perm batch le_delay
    · intro x hx y hy
      rw [nlargest] at hx
      have hpair := hsorted
      rw [← List.take_append_drop k (batch.mergeSort le_delay)] at hpair
      exact (List.pairwise_append.mp hpair).2.2 x hx y hy
  · intro hlen
    rw [nlargest, List.take_of_length_le (by rw [List.length_mergeSort]; exact hlen)]
    exact List.mergeSort_perm batch le_delay
  · intro a b hlen hsub hdelay
    rw [nlargest, List.take_of_length_le (by rw [List.length_mergeSort]; exact hlen)]
    exact @List.pair_sublist_mergeSort Incident le_delay a b batch
      le_delay_trans le_delay_total (by simpa [le_delay] using hdelay) hsub
  · rw [nlargest, ← henum, List.map_take]
  · have hsorted_enum := @List.sorted_mergeSort (Nat × Incident) (List.enumLE le_delay)
      (List.enumLE_trans le_delay_trans) (List.enumLE_total le_delay_total) batch.enum
    have hnodup : (List.map Prod.fst (batch.enum.mergeSort (List.enumLE le_delay))).Nodup := by
      have hp := hperm_enum.map Prod.fst
      rw [List.enum_map_fst] at hp
      exact hp.nodup_iff.mpr (List.nodup_range _)
    have hpne : (batch.enum.mergeSort (List.enumLE le_delay)).Pairwise
        (fun a b => a.1 ≠ b.1) := List.pairwise_map.mp hnodup
    refine (hsorted_enum.and hpne).imp ?_
    rintro ⟨i, a⟩ ⟨j, b⟩ ⟨hle, hne⟩
    show b.delay < a.delay ∨ (a.delay = b.delay ∧ i < j)
    have hne' : i ≠ j := hne
    by_cases h1 : b.delay ≤ a.delay
    · by_cases h2 : a.delay ≤ b.delay
      · simp only [List.enumLE, le_delay] at hle
        simp [h1, h2] at hle
        omega
      · omega
    · simp only [List.enumLE, le_delay] at hle
      simp [h1] at hle
  · simp [top_affected, nlargest, List.mergeSort, le_delay, inc0, inc1, inc2]
  · simp [nlargest, List.mergeSort, le_delay, inc0, inc1, inc2]

/-- Witness for C1: the all-of-them clause discharged at the concrete batch. -/
theorem top_affected_spec_witness :
    (([inc0, inc1, inc2] : List Incident).length ≤ 10)
    ∧ (nlargest 10 [inc0, inc1, inc2]).Perm [inc0, inc1, inc2] :=
  ⟨by decide, (top_affected_spec [inc0, inc1, inc2] 10).2.2.1 (by decide)⟩

/-- C8: for a valid range the historical series has one entry per calendar day
from the start date to the end date inclusive; the date of entry i is the start
date plus i, so the dates are strictly increasing with no gaps; and every
incident count lies in the half-open interval from 10 to 100. -/
theorem hist_generate_spec (r : Nat → Nat) (g : Nat → Rat) (s e : Int) (h : s ≤ e) :
    (hist_generate r g s e).length = (e - s).toNat + 1
    ∧ (∀ (i : Nat) (hi : i < (hist_generate r g s e).length),
        ((hist_generate r g s e).get ⟨i, hi⟩).date = s + (i : Int)
        ∧ 10 ≤ ((hist_generate r g s e).get ⟨i, hi⟩).incidents
        ∧ ((hist_generate r g s e).get ⟨i, hi⟩).incidents < 100) := by
  have hdr : date_range s e = (List.range (e - s + 1).toNat).map (fun i : Nat => s + (i : Int)) := by
    rw [date_range, if_pos h]
  have hlen : (hist_generate r g s e).length = (e - s + 1).toNat := by
    rw [hist_generate, hdr]
    rw [List.length_map, List.enum_length, List.length_map, List.length_range]
  constructor
  · rw [hlen]; omega
  · intro i hi
    have hget : (hist_generate r g s e).get ⟨i, hi⟩
        = { date := s + (i : Int), incidents := np_randint 10 100 (r i),
            avg_delay := g i } := by
      rw [List.get_eq_getElem]
      simp only [hist_generate, List.getElem_map, List.getElem_enum, hdr,
        List.getElem_range]
    rw [hget]
    exact ⟨rfl, np_randint_lb 10 100 _, np_randint_ub 10 100 _ (by decide)⟩

/-- Witness for C8: the length clause discharged at a concrete valid range. -/
theorem hist_generate_spec_witness :
    ((0 : Int) ≤ 2)
    ∧ (hist_generate (fun k => k) (fun _ => 300) 0 2).length = ((2 : Int) - 0).toNat + 1 :=
  ⟨by decide, (hist_generate_spec (fun k => k) (fun _ => 300) 0 2 (by decide)).1⟩

/-- Counterexample for C2: with the end date strictly before the start date the
historical-data block returns normally with the empty series; no InvalidRange
condition is signalled anywhere on this path. -/
theorem hist_generate_reversed_counterexample :
    hist_generate (fun k => k) (fun _ => 300) 1 0 = [] := by
  simp [hist_generate, date_range]

/-- C2 amended: for every pair of dates with the end date strictly before the
start date, the historical series generation returns normally with the empty
series rather than signalling an error. -/
theorem hist_generate_empty_on_reversed (r : Nat → Nat) (g : Nat → Rat)
    (s e : Int) (h : e < s) : hist_generate r g s e = [] := by
  simp only [hist_generate, date_range, if_neg (by omega : ¬ s ≤ e)]
  rfl

/-- Witness for the amended C2 at a concrete reversed range. -/
theorem hist_generate_empty_on_reversed_witness :
    ((0 : Int) < 1) ∧ hist_generate (fun k => k) (fun _ => 200) 1 0 = [] :=
  ⟨by decide, hist_generate_empty_on_reversed (fun k => k) (fun _ => 200) 1 0 (by decide)⟩

/-- C4: for a selected location other than the sentinel All, the filter keeps
exactly the incidents whose from or to field case-insensitively contains the
location as a substring: the result is the filtered sub-sequence of the batch,
membership holds exactly for matching incidents, the result is empty (and not
a failure, the function being total) when nothing matches, and the documented
example incident from T Nagar to Adyar is kept for the location nagar. -/
theorem filter_by_location_spec (batch : List Incident) (loc : String) (h : loc ≠ "All") :
    filter_by_location batch loc = batch.filter (matches_location loc)
    ∧ List.Sublist (filter_by_location batch loc) batch
    ∧ (∀ i : Incident,
        i ∈ filter_by_location batch loc ↔ i ∈ batch ∧ matches_location loc i = true)
    ∧ ((∀ i ∈ batch, matches_location loc i = false) → filter_by_location batch loc = [])
    ∧ matches_location "nagar" inc_nagar = true
    ∧ filter_by_location [inc_nagar, inc1] "nagar" = [inc_nagar] := by
  have hf : filter_by_location batch loc = batch.filter (matches_location loc) := by
    rw [filter_by_location, if_pos h]
  refine ⟨hf, ?_, ?_, ?_, by decide, by decide⟩
  · rw [hf]
    exact List.filter_sublist batch
  · intro i
    rw [hf, List.mem_filter]
  · intro hnone
    rw [hf]
    exact List.filter_eq_nil_iff.mpr (fun i hi => by simp [hnone i hi])

/-- Witness for C4: the filter equation discharged at the example location. -/
theorem filter_by_location_spec_witness :
    ("nagar" ≠ "All")
    ∧ filter_by_location [inc_nagar, inc1] "nagar"
        = List.filter (matches_location "nagar") [inc_nagar, inc1] :=
  ⟨by decide, (filter_by_location_spec [inc_nagar, inc1] "nagar" (by decide)).1⟩

/-- Counterexample for C9: when the generation field is present the query path
returns its text stripped of surrounding whitespace, not verbatim. -/
theorem insights_strip_counterexample :
    get_traffic_insights (InvokeResult.ok [("generation", " hi ")]) = "hi"
    ∧ get_traffic_insights (InvokeResult.ok [("generation", " hi ")]) ≠ " hi " := by
  constructor
  · decide
  · decide

/-- C9 amended: the query path always returns a string and never propagates a
failure: the stripped generation text when the field is present, the dumped raw
response when the field is absent, and a message containing both the short
description and the full error detail when the invocation raised. -/
theorem get_traffic_insights_spec :
    (∀ (body : List (String × String)) (g : String),
        lookup_key "generation" body = some g →
        get_traffic_insights (InvokeResult.ok body) = py_strip g)
    ∧ (∀ body : List (String × String), lookup_key "generation" body = none →
        get_traffic_insights (InvokeResult.ok body)
          = "Unexpected response structure. Full response: " ++ json_dumps body)
    ∧ (∀ estr erepr : String, get_traffic_insights (InvokeResult.err estr erepr)
          = "Error getting traffic insights: " ++ estr ++ "\nFull error: " ++ erepr) := by
  refine ⟨?_, ?_, fun _ _ => rfl⟩
  · intro body g hg
    simp [get_traffic_insights, hg]
  · intro body hn
    simp [get_traffic_insights, hn]

/-- Witness for the amended C9 at a concrete response body. -/
theorem get_traffic_insights_spec_witness :
    lookup_key "generation" [("generation", "fine")] = some "fine"
    ∧ get_traffic_insights (InvokeResult.ok [("generation", "fine")]) = py_strip "fine" :=
  ⟨by decide, (get_traffic_insights_spec).1 [("generation", "fine")] "fine" (by decide)⟩

/-- C3: the prompt construction does not embed the N/A placeholder for the
missing average-delay and total-length fields: with the statistics absent the
f-string evaluation raises a NameError on avg_delay, because the conditionals
those two lines intended sit outside the braces as literal text; when the
statistics are present the construction succeeds and embeds the user question
verbatim between the fixed prefix and suffix. -/
theorem build_prompt_nameerror (loc date : String) (top : Option (List Incident)) (q : String) :
    build_prompt loc date none top q
      = Except.error "NameError: name \x27avg_delay\x27 is not defined"
    ∧ (∀ s : SummaryStats, build_prompt loc date (some s) top q
        = Except.ok (prompt_before_question loc date s top ++ q ++ prompt_after_question loc)) :=
  ⟨rfl, fun _ => rfl⟩

end TrafficApp
